import Mathlib

/-!
Shallow embedding of the clinical-trial validation engine:
`src/clinical/patient_validator.py` (class `PatientValidator`) and
`src/clinical/adverse_event_processor.py` (class `AdverseEventProcessor`),
together with theorems settling the specification claims about them.

Python dictionary values that occur in these records are strings, integers,
booleans or `None`; they are modelled by the inductive type `Value`.
A record (Python `dict`) is modelled as an association list with unique keys;
`lookupField` is dictionary lookup.  Machine-level details (interning,
hashing) are irrelevant to the validators and are not modelled.
-/

namespace Clinical

/-- A Python value as it occurs in a patient / adverse-event record. -/
inductive Value where
  | str : String → Value
  | int : Int → Value
  | bool : Bool → Value
  | none : Value
deriving DecidableEq, Repr

/-- A record: Python `dict` of field name to value, as an association list. -/
abbrev Record := List (String × Value)

/-- Dictionary lookup (`record[k]` / `k in record`). -/
def lookupField (r : Record) (k : String) : Option Value :=
  match r.find? (fun p => p.1 == k) with
  | Option.some p => Option.some p.2
  | Option.none => Option.none

/-- Python `str(v)` as used by f-string interpolation. -/
def pyStr : Value → String
  | Value.str s => s
  | Value.int n => toString n
  | Value.bool true => "True"
  | Value.bool false => "False"
  | Value.none => "None"

/-- Python `repr(v)` as used by jsonschema error messages (`%r`): a string
is rendered in single quotes, except that one containing a single quote and
no double quote is rendered in double quotes.  Backslash escapes that repr
inserts for a string containing both quote kinds, or control characters,
are not modelled; no claim depends on such values. -/
def pyRepr : Value → String
  | Value.str s =>
      if s.data.contains '\x27' && !(s.data.contains '"') then
        "\"" ++ (s ++ "\"")
      else "\x27" ++ (s ++ "\x27")
  | v => pyStr v

/-! ### Exceptions

`PyExn` models the Python exceptions that the embedded code can raise.
The constructors `malformedInputError` and `schemaMismatchError` are
modelled from the spec: the spec names classes `MalformedInputError` and
`SchemaMismatchError`, but no such classes exist anywhere in the code; the
constructors exist only so that claims mentioning them can be stated. -/
inductive PyExn where
  | typeError : String → PyExn
  | valueError : String → PyExn
  | malformedInputError : String → PyExn
  | schemaMismatchError : String → PyExn
deriving DecidableEq, Repr

/-! ### AdverseEventProcessor -/

/-- `AdverseEventProcessor.SEVERITY_LEVELS`. -/
def SEVERITY_LEVELS : List String :=
  ["Mild", "Moderate", "Severe", "Life-threatening", "Fatal"]

/-- `AdverseEventProcessor.REQUIRED_COLUMNS`. -/
def REQUIRED_COLUMNS : List String :=
  ["event_id", "patient_id", "event_date", "description", "severity"]

/-- The per-field test of the `validate_event` loop:
`field not in event or event[field] is None or event[field] == ""`. -/
def aeMissing (e : Record) (f : String) : Bool :=
  match lookupField e f with
  | Option.none => true
  | Option.some v => v == Value.none || v == Value.str ""

/-- Python `event["severity"] in SEVERITY_LEVELS` (list membership by `==`;
a non-string value equals no element). -/
def severityOk (v : Value) : Bool :=
  SEVERITY_LEVELS.any (fun s => v == Value.str s)

/-- The messages appended by the `for field in REQUIRED_COLUMNS` loop of
`validate_event`, rendered as `filter` + `map` (same messages, same order). -/
def aeMissingErrs (e : Record) : List String :=
  (REQUIRED_COLUMNS.filter (fun f => aeMissing e f)).map
    (fun f => "Missing required field: " ++ f)

/-- The message appended by the severity test of `validate_event`:
`"severity" in event and event["severity"] not in SEVERITY_LEVELS`. -/
def aeSevErrs (e : Record) : List String :=
  match lookupField e "severity" with
  | Option.some v =>
      if severityOk v then [] else ["Invalid severity: " ++ pyStr v]
  | Option.none => []

/-- The full error list accumulated by `validate_event`. -/
def aeErrors (e : Record) : List String := aeMissingErrs e ++ aeSevErrs e

/-- `AdverseEventProcessor.validate_event`: returns
`(len(errors) == 0, errors)`. -/
def validate_event (e : Record) : Bool × List String :=
  ((aeErrors e).length == 0, aeErrors e)

/-! ### jsonschema Draft 7 validation of `PatientValidator.SCHEMA`

`PatientValidator.validate` first collects
`f"{error.json_path}: {error.message}"` for every error produced by
`jsonschema.Draft7Validator(SCHEMA).iter_errors(patient_data)`.
For a dict instance the validator checks, in schema order: each declared
property that is present in the instance (keyword order inside each
property subschema), then the `required` list.  No format checker is
installed, so `"format": "date"` is not enforced.  Every message below is
the exact jsonschema message; each is built as `"$" ++ tail` because every
`json_path` starts with `$`. -/

/-- Every jsonschema-derived error string starts with the json path root. -/
def dollarErr (t : String) : String := "$" ++ t

def isStrV : Value → Bool
  | Value.str _ => true
  | _ => false

def isBoolV : Value → Bool
  | Value.bool _ => true
  | _ => false

/-- Draft 7 `"type": "integer"`: a Python `int` that is not a `bool`. -/
def isIntV : Value → Bool
  | Value.int _ => true
  | _ => false

/-- The numeric view used by `minimum` / `maximum`: jsonschema skips the
bound checks unless `is_type(instance, "number")`, and the draft-7 type
checker excludes `bool` from `number`, so bounds apply to ints only. -/
def numVal : Value → Option Int
  | Value.int n => Option.some n
  | _ => Option.none

/-- A `"type"` keyword error for property `f`. -/
def typeErr (f tname : String) (v : Value) (ok : Bool) : List String :=
  if ok then []
  else [dollarErr ("." ++ (f ++ (": " ++ (pyRepr v ++
        (" is not of type \x27" ++ (tname ++ "\x27"))))))]

/-- A `"pattern"` keyword error for property `f`; the keyword only applies
to string instances. -/
def patternErr (f pat : String) (v : Value) (matcher : String → Bool) :
    List String :=
  match v with
  | Value.str s =>
      if matcher s then []
      else [dollarErr ("." ++ (f ++ (": " ++ (pyRepr (Value.str s) ++
            (" does not match \x27" ++ (pat ++ "\x27"))))))]
  | _ => []

/-- `re.search("^PAT[0-9]{6}$", s)` / `re.search("^SITE[0-9]{3}$", s)`:
with both anchors the whole string must match, except that Python `$`
also matches just before one trailing newline. -/
def reCore (s : String) : List Char :=
  if s.data.getLast? == Option.some '\n' then s.data.dropLast else s.data

def matchesPatientId (s : String) : Bool :=
  match reCore s with
  | 'P' :: 'A' :: 'T' :: rest => rest.length == 6 && rest.all Char.isDigit
  | _ => false

def matchesSiteId (s : String) : Bool :=
  match reCore s with
  | 'S' :: 'I' :: 'T' :: 'E' :: rest => rest.length == 3 && rest.all Char.isDigit
  | _ => false

/-- Python `v in ["M", "F", "O"]`. -/
def genderOk (v : Value) : Bool :=
  v == Value.str "M" || v == Value.str "F" || v == Value.str "O"

/-- Subschema of `patient_id`: `{"type": "string", "pattern": "^PAT[0-9]{6}$"}`. -/
def patientIdChecks (v : Value) : List String :=
  typeErr "patient_id" "string" v (isStrV v) ++
    patternErr "patient_id" "^PAT[0-9]{6}$" v matchesPatientId

/-- `minimum` / `maximum` keyword errors of the `age` subschema. -/
def ageBoundErrs (v : Value) : List String :=
  match numVal v with
  | Option.some n =>
      (if n < 18 then
        [dollarErr (".age: " ++ (pyRepr v ++ " is less than the minimum of 18"))]
       else []) ++
      (if 85 < n then
        [dollarErr (".age: " ++ (pyRepr v ++ " is greater than the maximum of 85"))]
       else [])
  | Option.none => []

/-- Subschema of `age`: `{"type": "integer", "minimum": 18, "maximum": 85}`. -/
def ageChecks (v : Value) : List String :=
  typeErr "age" "integer" v (isIntV v) ++ ageBoundErrs v

/-- Subschema of `gender`: `{"type": "string", "enum": ["M", "F", "O"]}`. -/
def genderChecks (v : Value) : List String :=
  typeErr "gender" "string" v (isStrV v) ++
    (if genderOk v then []
     else [dollarErr (".gender: " ++ (pyRepr v ++
           " is not one of [\x27M\x27, \x27F\x27, \x27O\x27]"))])

/-- Subschema of `enrollment_date`: `{"type": "string", "format": "date"}`;
no format checker is installed, so only the type is checked. -/
def enrollChecks (v : Value) : List String :=
  typeErr "enrollment_date" "string" v (isStrV v)

/-- Subschema of `site_id`: `{"type": "string", "pattern": "^SITE[0-9]{3}$"}`. -/
def siteChecks (v : Value) : List String :=
  typeErr "site_id" "string" v (isStrV v) ++
    patternErr "site_id" "^SITE[0-9]{3}$" v matchesSiteId

/-- Subschema of `consent_signed`: `{"type": "boolean"}`. -/
def consentChecks (v : Value) : List String :=
  typeErr "consent_signed" "boolean" v (isBoolV v)

/-- The `required` list of `PatientValidator.SCHEMA`. -/
def PATIENT_REQUIRED : List String :=
  ["patient_id", "age", "gender", "enrollment_date", "site_id", "consent_signed"]

/-- The `properties` keyword checks a subschema for each present property. -/
def propErrors (r : Record) (f : String) (checks : Value → List String) :
    List String :=
  match lookupField r f with
  | Option.some v => checks v
  | Option.none => []

/-- `required` keyword errors, `"$: 'f' is a required property"` for each
absent required field, in `required`-list order. -/
def requiredErrors (r : Record) : List String :=
  (PATIENT_REQUIRED.filter (fun f => (lookupField r f).isNone)).map
    (fun f => dollarErr (": \x27" ++ (f ++ "\x27 is a required property")))

/-- All errors of `Draft7Validator(SCHEMA).iter_errors` on a dict instance,
formatted as `f"{error.json_path}: {error.message}"`, in emission order. -/
def patientSchemaErrors (r : Record) : List String :=
  propErrors r "patient_id" patientIdChecks ++
  propErrors r "age" ageChecks ++
  propErrors r "gender" genderChecks ++
  propErrors r "enrollment_date" enrollChecks ++
  propErrors r "site_id" siteChecks ++
  propErrors r "consent_signed" consentChecks ++
  requiredErrors r

/-! ### datetime -/

/-!
`datetime.fromisoformat` and the naive/aware distinction.  The grammar
modelled is the one CPython (3.11) accepts for the strings this code can
meet: a date `YYYY-MM-DD` or the basic form `YYYYMMDD`; optionally one
separator character (any character) followed by a time `HH`, `HH:MM`,
`HH:MM:SS`, `HHMM` or `HHMMSS`; optionally a fractional part introduced
by `.` or `,` with one or more digits, interpreted as fractional seconds
of whichever component precedes it and truncated to microseconds;
optionally a timezone suffix: `Z`, or a sign followed by the same time
forms with the total offset strictly below 24 hours.  A string with an
offset or `Z` parses to an aware datetime.  Out-of-range components raise
`ValueError`, modelled as `Option.none` like any other parse failure. -/

/-- A `datetime.datetime` value without its `tzinfo`. -/
structure DT where
  year : Nat
  month : Nat
  day : Nat
  hour : Nat
  minute : Nat
  second : Nat
  micro : Nat
deriving DecidableEq, Repr

/-- A parsed datetime: naive, or aware with a UTC offset in seconds.
Comparing an aware datetime with the naive `datetime.now()` raises
`TypeError`, so the offset value never reaches a comparison here. -/
inductive PyDateTime where
  | naive : DT → PyDateTime
  | aware : DT → Int → PyDateTime
deriving DecidableEq, Repr

/-- `datetime` comparison `a < b` (naive with naive): lexicographic. -/
def DT.ltb (a b : DT) : Bool :=
  if a.year != b.year then decide (a.year < b.year)
  else if a.month != b.month then decide (a.month < b.month)
  else if a.day != b.day then decide (a.day < b.day)
  else if a.hour != b.hour then decide (a.hour < b.hour)
  else if a.minute != b.minute then decide (a.minute < b.minute)
  else if a.second != b.second then decide (a.second < b.second)
  else decide (a.micro < b.micro)

def digitVal (c : Char) : Nat := c.toNat - 48

def isLeap (y : Nat) : Bool :=
  y % 4 == 0 && (y % 100 != 0 || y % 400 == 0)

def daysInMonth (y m : Nat) : Nat :=
  if m == 2 then (if isLeap y then 29 else 28)
  else if m == 4 || m == 6 || m == 9 || m == 11 then 30
  else 31

/-- Calendar / clock range checks performed by the `datetime` constructor. -/
def mkDT (y mo d h mi s us : Nat) : Option DT :=
  if 1 ≤ y ∧ y ≤ 9999 ∧ 1 ≤ mo ∧ mo ≤ 12 ∧ 1 ≤ d ∧ d ≤ daysInMonth y mo ∧
     h ≤ 23 ∧ mi ≤ 59 ∧ s ≤ 59 ∧ us ≤ 999999 then
    Option.some ⟨y, mo, d, h, mi, s, us⟩
  else Option.none

def fourDigits (a b c d : Char) : Nat :=
  digitVal a * 1000 + digitVal b * 100 + digitVal c * 10 + digitVal d

def twoDigits (a b : Char) : Nat := digitVal a * 10 + digitVal b

/-- Two decimal digits, or fail. -/
def parse2d : List Char → Option (Nat × List Char)
  | a :: b :: rest =>
      if a.isDigit && b.isDigit then Option.some (twoDigits a b, rest)
      else Option.none
  | _ => Option.none

/-- The date part: `YYYY-MM-DD` or the basic form `YYYYMMDD`. -/
def parseDate : List Char → Option ((Nat × Nat × Nat) × List Char)
  | y1 :: y2 :: y3 :: y4 :: '-' :: m1 :: m2 :: '-' :: d1 :: d2 :: rest =>
      if [y1, y2, y3, y4, m1, m2, d1, d2].all Char.isDigit then
        Option.some
          ((fourDigits y1 y2 y3 y4, twoDigits m1 m2, twoDigits d1 d2), rest)
      else Option.none
  | y1 :: y2 :: y3 :: y4 :: m1 :: m2 :: d1 :: d2 :: rest =>
      if [y1, y2, y3, y4, m1, m2, d1, d2].all Char.isDigit then
        Option.some
          ((fourDigits y1 y2 y3 y4, twoDigits m1 m2, twoDigits d1 d2), rest)
      else Option.none
  | _ => Option.none

/-- One or more fractional digits, scaled to microseconds; digits beyond
the sixth are truncated, as CPython does. -/
def parseFrac (l : List Char) : Option (Nat × List Char) :=
  match l.takeWhile Char.isDigit with
  | [] => Option.none
  | ds =>
      Option.some
        ((ds.take 6).foldl (fun a c => a * 10 + digitVal c) 0 *
            10 ^ (6 - min ds.length 6),
          l.dropWhile Char.isDigit)

/-- After the hour: `:MM[:SS]`, the basic `MM[SS]`, or nothing. -/
def parseMinSec : List Char → Option ((Nat × Nat) × List Char)
  | ':' :: r =>
      (match parse2d r with
       | Option.none => Option.none
       | Option.some (mm, r2) =>
           match r2 with
           | ':' :: r3 =>
               (match parse2d r3 with
                | Option.none => Option.none
                | Option.some (ss, r4) => Option.some ((mm, ss), r4))
           | _ => Option.some ((mm, 0), r2))
  | l =>
      match parse2d l with
      | Option.some (mm, r2) =>
          (match parse2d r2 with
           | Option.some (ss, r3) => Option.some ((mm, ss), r3)
           | Option.none => Option.some ((mm, 0), r2))
      | Option.none => Option.some ((0, 0), l)

/-- A time: the hour, then `parseMinSec`, then the optional fractional
part — which CPython attaches as fractional seconds after whichever
component comes last (so `12.5` means `12:00:00.500000`). -/
def parseTime (l : List Char) : Option ((Nat × Nat × Nat × Nat) × List Char) :=
  match parse2d l with
  | Option.none => Option.none
  | Option.some (hh, r1) =>
      match parseMinSec r1 with
      | Option.none => Option.none
      | Option.some ((mm, ss), r2) =>
          match r2 with
          | '.' :: r3 | ',' :: r3 =>
              (match parseFrac r3 with
               | Option.some (us, r4) => Option.some ((hh, mm, ss, us), r4)
               | Option.none => Option.none)
          | _ => Option.some ((hh, mm, ss, 0), r2)

/-- The digits after a `+` or `-` sign: the same time forms, consumed to
the end.  CPython folds the components into one timedelta and only bounds
the total strictly below 24 hours (`+00:99` is folded to 1:39, not
range-checked per component). -/
def parseOffset (l : List Char) : Option Int :=
  match parseTime l with
  | Option.some ((h, m, s, _us), []) =>
      if (h * 60 + m) * 60 + s < 86400 then
        Option.some (((h * 60 + m) * 60 + s : Nat) : Int)
      else Option.none
  | _ => Option.none

/-- The timezone suffix: absent, `Z`, or a signed offset. -/
def parseTz : List Char → Option (Option Int)
  | [] => Option.some Option.none
  | ['Z'] => Option.some (Option.some 0)
  | '+' :: r => (parseOffset r).map Option.some
  | '-' :: r => (parseOffset r).map (fun off => Option.some (-off))
  | _ => Option.none

/-- `datetime.fromisoformat`; `Option.none` is the raised `ValueError`. -/
def fromisoformat (s : String) : Option PyDateTime :=
  match parseDate s.data with
  | Option.none => Option.none
  | Option.some ((y, mo, d), rest) =>
      match rest with
      | [] => (mkDT y mo d 0 0 0 0).map PyDateTime.naive
      | _sep :: timechars =>
          match parseTime timechars with
          | Option.none => Option.none
          | Option.some ((hh, mm, ss, us), rest2) =>
              match parseTz rest2 with
              | Option.none => Option.none
              | Option.some Option.none =>
                  (mkDT y mo d hh mm ss us).map PyDateTime.naive
              | Option.some (Option.some off) =>
                  (mkDT y mo d hh mm ss us).map
                    (fun dt => PyDateTime.aware dt off)

/-! ### PatientValidator business rules and orchestration -/

/-- The outcome of `datetime.fromisoformat(value)` followed by
`if enrollment > datetime.now()` for a string value: an unparseable
string raises `ValueError`, caught and turned into the invalid-format
message; a naive parse is compared with the injected now; an aware parse
makes the naive-vs-aware comparison raise `TypeError`, which the
surrounding `except ValueError` does not catch, so `validate` raises. -/
def dateRuleErrs (s : String) (now : DT) : Except PyExn (List String) :=
  match fromisoformat s with
  | Option.some (PyDateTime.naive d) =>
      Except.ok
        (if DT.ltb now d then ["enrollment_date: Cannot be in the future"]
         else [])
  | Option.some (PyDateTime.aware _ _) =>
      Except.error
        (PyExn.typeError "can\x27t compare offset-naive and offset-aware datetimes")
  | Option.none => Except.ok ["enrollment_date: Invalid date format"]

/-- The enrollment-date business rule of `PatientValidator.validate`:
nothing when the key is absent; `dateRuleErrs` on a string value; on a
non-string value `fromisoformat` itself raises `TypeError`, which
escapes `validate`. -/
def enrollmentErrors (r : Record) (now : DT) : Except PyExn (List String) :=
  match lookupField r "enrollment_date" with
  | Option.none => Except.ok []
  | Option.some (Value.str s) => dateRuleErrs s now
  | Option.some _ =>
      Except.error (PyExn.typeError "fromisoformat: argument must be str")

/-- The consent business rule:
`patient_data.get("consent_signed") is False`. -/
def consentErrors (r : Record) : List String :=
  if lookupField r "consent_signed" == Option.some (Value.bool false) then
    ["consent_signed: Patient must have signed consent"]
  else []

/-- `PatientValidator.validate` on a dict instance: schema errors, then the
enrollment-date rule (which may raise), then the consent rule, returning
`(len(errors) == 0, errors)`.  The consent check is pure, so computing the
date rule first and concatenating afterwards preserves the observable
behaviour of the sequential Python code, including the escaping exception. -/
def validate (r : Record) (now : DT) : Except PyExn (Bool × List String) :=
  match enrollmentErrors r now with
  | Except.error e => Except.error e
  | Except.ok dateErrs =>
      Except.ok
        ((patientSchemaErrors r ++ dateErrs ++ consentErrors r).length == 0,
          patientSchemaErrors r ++ dateErrs ++ consentErrors r)

/-- A `pandas.DataFrame` as `load_events` / `categorize_by_severity` use it:
the column-name set, and the cells of the `severity` column
(`Option.none` models a pandas `NaN`, i.e. a missing cell).  No other
column's cells are inspected by the embedded methods. -/
structure DataFrame where
  columns : List String
  severityCol : List (Option String)
deriving DecidableEq, Repr

/-- `set(REQUIRED_COLUMNS) - set(df.columns)`, kept in `REQUIRED_COLUMNS`
order (a Python set has no specified order; only the membership matters to
any claim). -/
def missingCols (df : DataFrame) : List String :=
  REQUIRED_COLUMNS.filter (fun c => !(df.columns.contains c))

/-- `", ".join` of the single-quoted column names, as in Python repr of a
set of strings. -/
def joinQuoted : List String → String
  | [] => ""
  | [c] => "\x27" ++ (c ++ "\x27")
  | c :: rest => ("\x27" ++ (c ++ "\x27")) ++ (", " ++ joinQuoted rest)

/-- `str` of a non-empty Python set of strings: `{'a', 'b'}`. -/
def pySetStr (l : List String) : String :=
  "\x7b" ++ (joinQuoted l ++ "\x7d")

/-- `AdverseEventProcessor.load_events`, after `pd.read_csv` has produced
the DataFrame (file parsing is peripheral I/O outside the engine): raise
`ValueError(f"Missing required columns: {missing_cols}")` when any required
column is absent, else return the DataFrame. -/
def load_events (df : DataFrame) : Except PyExn DataFrame :=
  if missingCols df = [] then Except.ok df
  else Except.error (PyExn.valueError
    ("Missing required columns: " ++ pySetStr (missingCols df)))

/-- `AdverseEventProcessor.categorize_by_severity`:
`df["severity"].value_counts().to_dict()`.  `value_counts` counts the
occurrences of each distinct non-null value — its default `dropna=True`
excludes NaN cells — and `to_dict` gives a mapping from label to count,
modelled as an association list (order is irrelevant to a dict). -/
def categorize_by_severity (df : DataFrame) : List (String × Nat) :=
  (df.severityCol.filterMap id).dedup.map
    (fun v => (v, (df.severityCol.filterMap id).count v))

/-- The sum of the counts of an `AggregateCount` mapping. -/
def sumCounts (m : List (String × Nat)) : Nat := (m.map Prod.snd).sum

/-! ### Concrete sample data (from the repository's tests and spec) -/

/-- The valid patient record of `tests/test_patient_validator.py`. -/
def validPatient : Record :=
  [("patient_id", Value.str "PAT000001"),
   ("age", Value.int 45),
   ("gender", Value.str "F"),
   ("enrollment_date", Value.str "2024-01-15"),
   ("site_id", Value.str "SITE001"),
   ("consent_signed", Value.bool true)]

/-- The injected "now" of the spec scenario: 2025-01-01. -/
def now0 : DT := ⟨2025, 1, 1, 0, 0, 0, 0⟩

/-- The valid adverse event of `tests/test_adverse_event_processor.py`. -/
def validEvent : Record :=
  [("event_id", Value.str "AE001"),
   ("patient_id", Value.str "PAT000001"),
   ("event_date", Value.str "2024-01-20"),
   ("description", Value.str "Headache"),
   ("severity", Value.str "Mild")]

/-- `validPatient` with `consent_signed` flipped to `False`
(`tests/test_patient_validator.py::test_unsigned_consent`). -/
def consentFalsePatient : Record :=
  [("patient_id", Value.str "PAT000001"),
   ("age", Value.int 45),
   ("gender", Value.str "F"),
   ("enrollment_date", Value.str "2024-01-15"),
   ("site_id", Value.str "SITE001"),
   ("consent_signed", Value.bool false)]

/-- An adverse event whose `severity` key is present with value `None`. -/
def nullSeverityEvent : Record :=
  [("event_id", Value.str "AE001"), ("severity", Value.none)]

/-- An adverse event with lowercase severity `"mild"`. -/
def mildEvent : Record := [("severity", Value.str "mild")]

/-- Batch source with every required column (structural check passes). -/
def dfComplete : DataFrame := ⟨REQUIRED_COLUMNS, []⟩

/-- The spec scenario: a batch source whose column set lacks `patient_id`. -/
def dfMissingPatientId : DataFrame :=
  ⟨["event_id", "event_date", "description", "severity"], []⟩

/-- A batch with one labeled record and one NaN severity cell. -/
def dfWithNaN : DataFrame :=
  ⟨REQUIRED_COLUMNS, [Option.some "Mild", Option.none]⟩

/-- A batch of three labeled records (as in the categorization test). -/
def dfThree : DataFrame :=
  ⟨REQUIRED_COLUMNS,
   [Option.some "Mild", Option.some "Moderate", Option.some "Mild"]⟩

/-! ### Named error messages used in claim statements -/

/-- The jsonschema `pattern` error for an invalid `patient_id` string. -/
def patIdPatternMsg (p : String) : String :=
  dollarErr ("." ++ ("patient_id" ++ (": " ++ (pyRepr (Value.str p) ++
    (" does not match \x27" ++ ("^PAT[0-9]{6}$" ++ "\x27"))))))

/-- The jsonschema `minimum` error for an `age` value below 18. -/
def ageMinMsg (v : Value) : String :=
  dollarErr (".age: " ++ (pyRepr v ++ " is less than the minimum of 18"))

/-- The `validate_event` severity error message. -/
def invalidSeverityMsg (v : Value) : String := "Invalid severity: " ++ pyStr v

/-- The character at an index of a character list. -/
def nthChar : List Char → Nat → Option Char
  | [], _ => Option.none
  | c :: _, 0 => Option.some c
  | _ :: t, n + 1 => nthChar t n

/-- `m` mentions `f`: the text of `f` occurs contiguously inside `m`. -/
def mentions (f m : String) : Prop :=
  ∃ a b : List Char, m.data = a ++ (f.data ++ b)

/-! ### Helper lemmas -/

theorem data_append (s t : String) : (s ++ t).data = s.data ++ t.data := rfl

theorem ne_of_nthChar (s t : String) (i : Nat)
    (h : nthChar s.data i ≠ nthChar t.data i) : s ≠ t :=
  fun e => h (by rw [e])

theorem mentions_of_append_right (s : String) {f t : String}
    (h : mentions f t) : mentions f (s ++ t) := by
  obtain ⟨a, b, hab⟩ := h
  exact ⟨s.data ++ a, b, by rw [data_append, hab, List.append_assoc]⟩

theorem mentions_of_append_left {f s : String} (t : String)
    (h : mentions f s) : mentions f (s ++ t) := by
  obtain ⟨a, b, hab⟩ := h
  refine ⟨a, b ++ t.data, ?_⟩
  rw [data_append, hab]
  simp [List.append_assoc]

theorem length_beq_false {α : Type} {l : List α} (h : l ≠ []) :
    (l.length == 0) = false := by
  cases l with
  | nil => exact absurd rfl h
  | cons a t => rfl

theorem length_beq_iff {α : Type} (l : List α) :
    ((l.length == 0) = true) ↔ l = [] := by
  cases l <;> simp

/-- Structure of a successful `validate` call. -/
theorem validate_ok (r : Record) (now : DT) (dErrs : List String)
    (h : enrollmentErrors r now = Except.ok dErrs) :
    validate r now = Except.ok
      ((patientSchemaErrors r ++ dErrs ++ consentErrors r).length == 0,
        patientSchemaErrors r ++ dErrs ++ consentErrors r) := by
  unfold validate
  rw [h]

/-- Inversion of a successful `validate` call. -/
theorem validate_ok_inv {r : Record} {now : DT} {v : Bool} {errs : List String}
    (h : validate r now = Except.ok (v, errs)) :
    ∃ dErrs, enrollmentErrors r now = Except.ok dErrs ∧
      errs = patientSchemaErrors r ++ dErrs ++ consentErrors r ∧
      v = (errs.length == 0) := by
  unfold validate at h
  split at h
  case _ e heq => cases h
  case _ dErrs heq =>
    injection h with h1
    have h2 := congrArg Prod.snd h1
    have h3 := congrArg Prod.fst h1
    simp only at h2 h3
    subst h2
    exact ⟨dErrs, heq, rfl, h3.symm⟩

theorem invalidSeverityMsg_not_mem_missing (e : Record) (v : Value) :
    invalidSeverityMsg v ∉ aeMissingErrs e := by
  intro h
  obtain ⟨f, _, heq⟩ := List.mem_map.mp h
  exact ne_of_nthChar ("Missing required field: " ++ f) (invalidSeverityMsg v) 0
    (show Option.some 'M' ≠ Option.some 'I' by decide) heq

/-! ### Claims -/

/-- C1: for every input record and both validators (`PatientValidator.validate`
whenever it returns a result, and `AdverseEventProcessor.validate_event`),
the returned `is_valid` flag is true if and only if the returned error list
is empty. -/
theorem C1_is_valid_iff_errors_empty :
    (∀ (r : Record) (now : DT) (v : Bool) (errs : List String),
      validate r now = Except.ok (v, errs) → (v = true ↔ errs = [])) ∧
    (∀ e : Record, (validate_event e).1 = true ↔ (validate_event e).2 = []) := by
  constructor
  · intro r now v errs h
    obtain ⟨dErrs, _, _, hv⟩ := validate_ok_inv h
    rw [hv]
    exact length_beq_iff errs
  · intro e
    exact length_beq_iff (aeErrors e)

theorem C1_witness :
    (true = true ↔ ([] : List String) = []) ∧
    ((validate_event validEvent).1 = true ↔ (validate_event validEvent).2 = []) :=
  ⟨C1_is_valid_iff_errors_empty.1 validPatient now0 true [] rfl,
   C1_is_valid_iff_errors_empty.2 validEvent⟩

/-- C2: every record missing a required field of its entity kind's schema
validates to `is_valid = false` with an error mentioning that field — for
adverse events unconditionally, for patients whenever `validate` returns. -/
theorem C2_missing_required_field :
    (∀ (e : Record) (f : String), f ∈ REQUIRED_COLUMNS →
      lookupField e f = Option.none →
      (validate_event e).1 = false ∧ ∃ m ∈ (validate_event e).2, mentions f m) ∧
    (∀ (r : Record) (now : DT) (f : String) (v : Bool) (errs : List String),
      f ∈ PATIENT_REQUIRED → lookupField r f = Option.none →
      validate r now = Except.ok (v, errs) →
      v = false ∧ ∃ m ∈ errs, mentions f m) := by
  constructor
  · intro e f hf hl
    have hmiss : aeMissing e f = true := by unfold aeMissing; rw [hl]
    have hmem : ("Missing required field: " ++ f) ∈ aeMissingErrs e :=
      List.mem_map.mpr ⟨f, List.mem_filter.mpr ⟨hf, hmiss⟩, rfl⟩
    have hmem2 : ("Missing required field: " ++ f) ∈ aeErrors e :=
      List.mem_append.mpr (Or.inl hmem)
    refine ⟨length_beq_false (List.ne_nil_of_mem hmem2), _, hmem2, ?_⟩
    exact ⟨"Missing required field: ".data, [], by simp [data_append]⟩
  · intro r now f v errs hf hl hok
    obtain ⟨dErrs, _, herrs, hv⟩ := validate_ok_inv hok
    have hmem : dollarErr (": \x27" ++ (f ++ "\x27 is a required property")) ∈
        requiredErrors r :=
      List.mem_map.mpr ⟨f, List.mem_filter.mpr ⟨hf, by rw [hl]; rfl⟩, rfl⟩
    have hmemS : dollarErr (": \x27" ++ (f ++ "\x27 is a required property")) ∈
        patientSchemaErrors r := by
      unfold patientSchemaErrors
      exact List.mem_append.mpr (Or.inr hmem)
    have hmemE : dollarErr (": \x27" ++ (f ++ "\x27 is a required property")) ∈
        errs := by
      rw [herrs]
      exact List.mem_append.mpr (Or.inl (List.mem_append.mpr (Or.inl hmemS)))
    refine ⟨?_, _, hmemE, ?_⟩
    · rw [hv]; exact length_beq_false (List.ne_nil_of_mem hmemE)
    · exact ⟨"$: \x27".data, "\x27 is a required property".data, rfl⟩

theorem C2_witness :
    (validate_event ([] : Record)).1 = false ∧
    ∃ m ∈ (validate_event ([] : Record)).2, mentions "severity" m :=
  C2_missing_required_field.1 [] "severity" (by decide) rfl

/-- C3: validation accumulates all violations: two distinct missing required
fields of an adverse event each yield their own error, and a patient record
with an invalid `patient_id` together with an under-range `age` receives
both the pattern error and the minimum error, as distinct entries. -/
theorem C3_accumulates_all_violations :
    (∀ (e : Record) (f g : String), f ∈ REQUIRED_COLUMNS →
      g ∈ REQUIRED_COLUMNS → f ≠ g →
      aeMissing e f = true → aeMissing e g = true →
      ("Missing required field: " ++ f) ∈ (validate_event e).2 ∧
      ("Missing required field: " ++ g) ∈ (validate_event e).2 ∧
      ("Missing required field: " ++ f) ≠ ("Missing required field: " ++ g)) ∧
    (∀ (r : Record) (now : DT) (v : Bool) (errs : List String)
      (p : String) (a : Int),
      validate r now = Except.ok (v, errs) →
      lookupField r "patient_id" = Option.some (Value.str p) →
      matchesPatientId p = false →
      lookupField r "age" = Option.some (Value.int a) → a < 18 →
      patIdPatternMsg p ∈ errs ∧ ageMinMsg (Value.int a) ∈ errs ∧
      patIdPatternMsg p ≠ ageMinMsg (Value.int a)) := by
  constructor
  · intro e f g hf hg hfg hmf hmg
    have hmemf : ("Missing required field: " ++ f) ∈ aeErrors e :=
      List.mem_append.mpr (Or.inl
        (List.mem_map.mpr ⟨f, List.mem_filter.mpr ⟨hf, hmf⟩, rfl⟩))
    have hmemg : ("Missing required field: " ++ g) ∈ aeErrors e :=
      List.mem_append.mpr (Or.inl
        (List.mem_map.mpr ⟨g, List.mem_filter.mpr ⟨hg, hmg⟩, rfl⟩))
    refine ⟨hmemf, hmemg, fun h => hfg ?_⟩
    have hd : f.data = g.data :=
      List.append_cancel_left (congrArg String.data h)
    cases f; cases g; cases hd; rfl
  · intro r now v errs p a hok hlp hmatch hla ha
    obtain ⟨dErrs, _, herrs, _⟩ := validate_ok_inv hok
    have hnot : ¬ (85 : Int) < a := by omega
    have h1 : patientIdChecks (Value.str p) = [patIdPatternMsg p] := by
      simp [patientIdChecks, typeErr, patternErr, isStrV, hmatch, patIdPatternMsg]
    have h2 : ageChecks (Value.int a) = [ageMinMsg (Value.int a)] := by
      simp [ageChecks, typeErr, isIntV, ageBoundErrs, numVal, ha, hnot, ageMinMsg]
    have hm1 : patIdPatternMsg p ∈ patientSchemaErrors r := by
      unfold patientSchemaErrors
      simp only [List.mem_append]
      refine Or.inl (Or.inl (Or.inl (Or.inl (Or.inl (Or.inl ?_)))))
      unfold propErrors
      rw [hlp]
      show patIdPatternMsg p ∈ patientIdChecks (Value.str p)
      rw [h1]
      exact List.mem_singleton.mpr rfl
    have hm2 : ageMinMsg (Value.int a) ∈ patientSchemaErrors r := by
      unfold patientSchemaErrors
      simp only [List.mem_append]
      refine Or.inl (Or.inl (Or.inl (Or.inl (Or.inl (Or.inr ?_)))))
      unfold propErrors
      rw [hla]
      show ageMinMsg (Value.int a) ∈ ageChecks (Value.int a)
      rw [h2]
      exact List.mem_singleton.mpr rfl
    refine ⟨?_, ?_, ?_⟩
    · rw [herrs]
      exact List.mem_append.mpr (Or.inl (List.mem_append.mpr (Or.inl hm1)))
    · rw [herrs]
      exact List.mem_append.mpr (Or.inl (List.mem_append.mpr (Or.inl hm2)))
    · exact ne_of_nthChar (patIdPatternMsg p) (ageMinMsg (Value.int a)) 2
        (show Option.some 'p' ≠ Option.some 'a' by decide)

theorem C3_witness :
    ("Missing required field: " ++ "event_id") ∈
      (validate_event ([] : Record)).2 ∧
    ("Missing required field: " ++ "patient_id") ∈
      (validate_event ([] : Record)).2 ∧
    ("Missing required field: " ++ "event_id") ≠
      ("Missing required field: " ++ "patient_id") :=
  C3_accumulates_all_violations.1 [] "event_id" "patient_id"
    (by decide) (by decide) (by decide) rfl rfl

/-- C5: for an adverse-event record whose `severity` field is present, the
severity check passes (emits no invalid-severity error) exactly when the
value is one of the five case-sensitive labels; any other value, including
case variants, yields the error. -/
theorem C5_severity_enum :
    ∀ (e : Record) (v : Value), lookupField e "severity" = Option.some v →
      (invalidSeverityMsg v ∈ (validate_event e).2 ↔ severityOk v = false) := by
  intro e v hl
  have hsev : aeSevErrs e =
      if severityOk v then [] else [invalidSeverityMsg v] := by
    unfold aeSevErrs
    rw [hl]
    rfl
  constructor
  · intro hm
    cases hok : severityOk v
    · rfl
    · exfalso
      have hnil : aeSevErrs e = [] := by rw [hsev, hok]; rfl
      have hm2 : invalidSeverityMsg v ∈ aeMissingErrs e ++ aeSevErrs e := hm
      rw [hnil, List.append_nil] at hm2
      exact invalidSeverityMsg_not_mem_missing e v hm2
  · intro hok
    have hone : aeSevErrs e = [invalidSeverityMsg v] := by rw [hsev, hok]; rfl
    show invalidSeverityMsg v ∈ aeMissingErrs e ++ aeSevErrs e
    rw [hone]
    exact List.mem_append.mpr (Or.inr (List.mem_singleton.mpr rfl))

theorem C5_witness :
    invalidSeverityMsg (Value.str "mild") ∈ (validate_event mildEvent).2 ↔
      severityOk (Value.str "mild") = false :=
  C5_severity_enum mildEvent (Value.str "mild") rfl

/-- C7: a patient record with `consent_signed` present and equal to `False`
never validates (whenever `validate` returns a result its flag is false);
a record with `consent_signed = True` and every other check clean returns
`(True, [])`. -/
theorem C7_consent :
    (∀ (r : Record) (now : DT) (v : Bool) (errs : List String),
      validate r now = Except.ok (v, errs) →
      lookupField r "consent_signed" = Option.some (Value.bool false) →
      v = false) ∧
    (∀ (r : Record) (now : DT),
      lookupField r "consent_signed" = Option.some (Value.bool true) →
      patientSchemaErrors r = [] → enrollmentErrors r now = Except.ok [] →
      validate r now = Except.ok (true, [])) := by
  constructor
  · intro r now v errs hok hl
    obtain ⟨dErrs, _, herrs, hv⟩ := validate_ok_inv hok
    have hc : consentErrors r =
        ["consent_signed: Patient must have signed consent"] := by
      unfold consentErrors
      rw [hl]
      rfl
    have hmem : ("consent_signed: Patient must have signed consent") ∈ errs := by
      rw [herrs, hc]
      exact List.mem_append.mpr (Or.inr (List.mem_singleton.mpr rfl))
    rw [hv]
    exact length_beq_false (List.ne_nil_of_mem hmem)
  · intro r now hl hs he
    have hc : consentErrors r = [] := by
      unfold consentErrors
      rw [hl]
      rfl
    rw [validate_ok r now [] he, hs, hc]
    rfl

theorem C7_witness :
    false = false ∧ validate validPatient now0 = Except.ok (true, []) :=
  ⟨C7_consent.1 consentFalsePatient now0 false
      ["consent_signed: Patient must have signed consent"] rfl rfl,
   C7_consent.2 validPatient now0 rfl rfl rfl⟩

theorem mentions_joinQuoted {f : String} :
    ∀ l : List String, f ∈ l → mentions f (joinQuoted l) := by
  intro l
  induction l with
  | nil => intro h; cases h
  | cons c rest ih =>
    intro h
    cases rest with
    | nil =>
      have hc : f = c := List.mem_singleton.mp h
      subst hc
      exact ⟨['\x27'], ['\x27'], rfl⟩
    | cons c2 rest2 =>
      rcases List.mem_cons.mp h with h | h
      · subst h
        exact mentions_of_append_left _ ⟨['\x27'], ['\x27'], rfl⟩
      · exact mentions_of_append_right _ (mentions_of_append_right _ (ih h))

theorem mentions_pySetStr {f : String} {l : List String} (h : f ∈ l) :
    mentions f (pySetStr l) := by
  unfold pySetStr
  exact mentions_of_append_right _ (mentions_of_append_left _ (mentions_joinQuoted l h))

/-- C8 counterexample: on a batch source without the `patient_id` column,
`load_events` raises a plain `ValueError`, not a `SchemaMismatchError` —
no class of that name exists in the code. -/
theorem C8_counterexample :
    load_events dfMissingPatientId = Except.error (PyExn.valueError
      "Missing required columns: \x7b\x27patient_id\x27\x7d") ∧
    ¬ ∃ m, load_events dfMissingPatientId =
        Except.error (PyExn.schemaMismatchError m) := by
  refine ⟨rfl, ?_⟩
  rintro ⟨m, hm⟩
  rw [show load_events dfMissingPatientId = Except.error (PyExn.valueError
      "Missing required columns: \x7b\x27patient_id\x27\x7d") from rfl] at hm
  injection hm with h
  cases h

/-- C8 amended: when a required column is missing from the source's column
set, `load_events` fails fast — before any record is handed to per-record
processing — with a `ValueError` whose message names each missing field;
when no required column is missing, it raises no error and returns the
data unchanged. -/
theorem C8_amended_value_error :
    ∀ df : DataFrame,
      (missingCols df = [] → load_events df = Except.ok df) ∧
      (missingCols df ≠ [] →
        load_events df = Except.error (PyExn.valueError
          ("Missing required columns: " ++ pySetStr (missingCols df))) ∧
        ∀ f ∈ missingCols df,
          mentions f ("Missing required columns: " ++ pySetStr (missingCols df))) := by
  intro df
  constructor
  · intro h
    unfold load_events
    rw [if_pos h]
  · intro h
    refine ⟨?_, fun f hf => mentions_of_append_right _ (mentions_pySetStr hf)⟩
    unfold load_events
    rw [if_neg h]

theorem C8_witness :
    load_events dfComplete = Except.ok dfComplete ∧
    (load_events dfMissingPatientId = Except.error (PyExn.valueError
      ("Missing required columns: " ++ pySetStr (missingCols dfMissingPatientId))) ∧
     ∀ f ∈ missingCols dfMissingPatientId,
       mentions f
         ("Missing required columns: " ++ pySetStr (missingCols dfMissingPatientId))) :=
  ⟨(C8_amended_value_error dfComplete).1 rfl,
   (C8_amended_value_error dfMissingPatientId).2 (by decide)⟩

theorem filterMap_id_length {α : Type} :
    ∀ l : List (Option α), Option.none ∉ l →
      (l.filterMap id).length = l.length := by
  intro l
  induction l with
  | nil => intro _; rfl
  | cons c rest ih =>
    intro h
    cases c with
    | none => exact absurd (List.mem_cons_self _ _) h
    | some a =>
      have h2 : Option.none ∉ rest := fun hm => h (List.mem_cons_of_mem _ hm)
      simp [List.filterMap_cons, ih h2]

/-- C9 counterexample: a batch with a NaN severity cell is dropped from the
aggregation (`value_counts` default `dropna=True`), so the counts sum to
less than the number of records. -/
theorem C9_counterexample :
    categorize_by_severity dfWithNaN = [("Mild", 1)] ∧
    sumCounts (categorize_by_severity dfWithNaN) ≠
      dfWithNaN.severityCol.length := by
  refine ⟨rfl, ?_⟩
  decide

/-- C9 amended: for every batch with no null (NaN) severity cell, the
aggregate counts sum to the number of records, every bucket label appears
once, and each observed label is counted under its literal value (unknown
labels included) — NaN cells, if present, contribute to no bucket. -/
theorem C9_amended_sum_counts :
    ∀ df : DataFrame, Option.none ∉ df.severityCol →
      sumCounts (categorize_by_severity df) = df.severityCol.length ∧
      ((categorize_by_severity df).map Prod.fst).Nodup ∧
      ∀ s : String, Option.some s ∈ df.severityCol →
        (s, (df.severityCol.filterMap id).count s) ∈
          categorize_by_severity df := by
  intro df h
  refine ⟨?_, ?_, ?_⟩
  · unfold sumCounts categorize_by_severity
    rw [List.map_map]
    rw [show (Prod.snd ∘ fun v => (v, (df.severityCol.filterMap id).count v)) =
      fun v => (df.severityCol.filterMap id).count v from rfl]
    rw [List.sum_map_count_dedup_eq_length]
    exact filterMap_id_length df.severityCol h
  · unfold categorize_by_severity
    rw [List.map_map]
    rw [show (Prod.fst ∘ fun v => (v, (df.severityCol.filterMap id).count v)) =
      fun v => v from rfl]
    rw [List.map_id']
    exact List.nodup_dedup _
  · intro s hs
    unfold categorize_by_severity
    have hvals : s ∈ df.severityCol.filterMap id :=
      List.mem_filterMap.mpr ⟨Option.some s, hs, rfl⟩
    exact List.mem_map.mpr ⟨s, List.mem_dedup.mpr hvals, rfl⟩

theorem C9_witness :
    sumCounts (categorize_by_severity dfThree) = dfThree.severityCol.length ∧
    ((categorize_by_severity dfThree).map Prod.fst).Nodup ∧
    ∀ s : String, Option.some s ∈ dfThree.severityCol →
      (s, (dfThree.severityCol.filterMap id).count s) ∈
        categorize_by_severity dfThree :=
  C9_amended_sum_counts dfThree (by decide)

/-- C10: an adverse-event record whose `severity` key is present with value
`None` receives two distinct errors for that single field: the
missing-required-field error (the `None` value fails the required check)
and the invalid-severity error (the present key enters the enum check and
`None` is not a level). -/
theorem C10_null_severity_two_errors :
    ∀ e : Record, lookupField e "severity" = Option.some Value.none →
      ("Missing required field: severity") ∈ (validate_event e).2 ∧
      ("Invalid severity: None") ∈ (validate_event e).2 ∧
      ("Missing required field: severity" : String) ≠ "Invalid severity: None" := by
  intro e hl
  have hmiss : aeMissing e "severity" = true := by
    unfold aeMissing
    rw [hl]
    rfl
  have h1 : ("Missing required field: severity") ∈ aeMissingErrs e :=
    List.mem_map.mpr ⟨"severity", List.mem_filter.mpr ⟨by decide, hmiss⟩, rfl⟩
  have hsev : aeSevErrs e = ["Invalid severity: None"] := by
    unfold aeSevErrs
    rw [hl]
    rfl
  refine ⟨List.mem_append.mpr (Or.inl h1), ?_, by decide⟩
  show _ ∈ aeMissingErrs e ++ aeSevErrs e
  rw [hsev]
  exact List.mem_append.mpr (Or.inr (List.mem_singleton.mpr rfl))

theorem C10_witness :
    ("Missing required field: severity") ∈
      (validate_event nullSeverityEvent).2 ∧
    ("Invalid severity: None") ∈ (validate_event nullSeverityEvent).2 ∧
    ("Missing required field: severity" : String) ≠ "Invalid severity: None" :=
  C10_null_severity_two_errors nullSeverityEvent rfl

end Clinical
